import Mathlib

/-!
Verification of the deepfake-audio detection pipeline against its
natural-language specification.

The development shallowly embeds the Python sources:
  app.py                          (feature extractor, single-clip inference)
  deepfake_detector.py            (feature extractor, AudioDataset)
  deepfake_monitor.py             (root streaming monitor: buffer eviction)
  desktop-app/deepfake_monitor.py (desktop streaming monitor: event grouping,
                                   cooldown, stop_monitoring, result parsing)
  mobile-app/hf_api_client.py     (remote submit-then-poll client)

Library calls (librosa DSP, torch softmax exponential, the regex engine and
the HTTP stack) are modelled as explicit environment parameters carrying
exactly the data the surrounding Python code consumes; every line of Python
logic around those calls is translated directly.
-/

/-! ## Numpy-style 2D matrices and torch-style 3D tensors -/

/-- A 2D numpy-style array: a row count, a column count, and an entry
function (entries outside the shape are irrelevant). -/
structure Mat where
  rows : Nat
  cols : Nat
  entry : Nat → Nat → ℚ

/-- A 3D torch-style tensor with a channel dimension. -/
structure Tensor3 where
  ch : Nat
  rows : Nat
  cols : Nat
  entry : Nat → Nat → Nat → ℚ

/-! ## Feature extractor

Embeds `AudioFeatureExtractor.extract_mel_spectrogram` from app.py lines
61-82, identical to deepfake_detector.py lines 191-217, with the default
configuration sample_rate=22050, n_mels=128, max_len=128. -/

namespace Extractor

/-- Models `librosa.load(path, sr=22050, duration=5.0)`: the decoded
waveform is capped at 5.0 seconds, i.e. at 5 * 22050 = 110250 samples. -/
def loadSampleCount (n : Nat) : Nat := min n 110250

/-- Frame count of `librosa.feature.melspectrogram` with hop_length=512 and
the default center=True padding: 1 + floor(n / 512) frames for n samples. -/
def melFrameCount (n : Nat) : Nat := n / 512 + 1

/-- Decode environment for one audio input that decodes successfully:
the decoded sample count before the 5 second cap, the mel energies computed
by the librosa DSP for each (mel band, frame) cell, and the
`librosa.power_to_db(mel, ref=np.max)` per-entry conversion (which depends
on the whole matrix through its maximum, hence takes the matrix too). -/
structure AudioEnv where
  n : Nat
  melEnergy : Nat → Nat → ℚ
  dbOf : Mat → ℚ → ℚ

/-- Models `librosa.feature.melspectrogram(y=y, sr=sr, n_mels=128,
hop_length=512)` on a waveform of n samples: a matrix of 128 mel rows and
`melFrameCount n` frames whose values come from the library DSP. -/
def melspectrogram (melEnergy : Nat → Nat → ℚ) (n : Nat) : Mat :=
  { rows := 128, cols := melFrameCount n, entry := melEnergy }

/-- Models `librosa.power_to_db(mel_spec, ref=np.max)`: an entrywise,
shape-preserving conversion to log scale. -/
def power_to_db (dbOf : Mat → ℚ → ℚ) (m : Mat) : Mat :=
  { rows := m.rows, cols := m.cols, entry := fun i j => dbOf m (m.entry i j) }

/-- The pad-or-truncate step of `extract_mel_spectrogram`:
if `mel_spec_db.shape[1] < 128` pad each row on the right with the numpy
constant default 0 up to 128 columns, otherwise keep the first 128 columns
(`mel_spec_db[:, :128]`). -/
def padOrTruncate (max_len : Nat) (m : Mat) : Mat :=
  if m.cols < max_len then
    { rows := m.rows, cols := max_len,
      entry := fun i j => if j < m.cols then m.entry i j else 0 }
  else
    { rows := m.rows, cols := max_len, entry := fun i j => m.entry i j }

/-- The dB mel matrix of the extractor before shape normalization:
load (5 s cap), melspectrogram, power_to_db. -/
def extractedRaw (env : AudioEnv) : Mat :=
  power_to_db env.dbOf (melspectrogram env.melEnergy (loadSampleCount env.n))

/-- Body of `extract_mel_spectrogram` on an input that decodes
successfully. -/
def extract_mel_spectrogram (env : AudioEnv) : Mat :=
  padOrTruncate 128 (extractedRaw env)

/-- Full `extract_mel_spectrogram`, including the failure policy: any
exception in decoding or processing is caught and `None` is returned.
A failing input is modelled as `none`. -/
def extract_mel_spectrogram_opt (decoded : Option AudioEnv) : Option Mat :=
  decoded.map extract_mel_spectrogram

/-- The raw dB mel matrix always has 128 mel rows (the n_mels=128 contract
of the librosa call). -/
theorem extractedRaw_rows (env : AudioEnv) : (extractedRaw env).rows = 128 := rfl

/-- Helper: the extracted matrix always has 128 rows. -/
theorem extract_rows_eq (env : AudioEnv) :
    (extract_mel_spectrogram env).rows = 128 := by
  rcases lt_or_ge (extractedRaw env).cols 128 with h | h
  · simp [extract_mel_spectrogram, padOrTruncate, h, extractedRaw_rows]
  · simp [extract_mel_spectrogram, padOrTruncate, Nat.not_lt.mpr h, extractedRaw_rows]

/-- Helper: the extracted matrix always has 128 columns. -/
theorem extract_cols_eq (env : AudioEnv) :
    (extract_mel_spectrogram env).cols = 128 := by
  rcases lt_or_ge (extractedRaw env).cols 128 with h | h
  · simp [extract_mel_spectrogram, padOrTruncate, h]
  · simp [extract_mel_spectrogram, padOrTruncate, Nat.not_lt.mpr h]

end Extractor

/-! ## AudioDataset (deepfake_detector.py lines 238-264) -/

namespace Detector

open Extractor

/-- Models `np.zeros((128, 128))`. -/
def np_zeros_128 : Mat := { rows := 128, cols := 128, entry := fun _ _ => 0 }

/-- Models `torch.FloatTensor(features).unsqueeze(0)`: adds a leading
channel dimension of size 1. -/
def unsqueeze0 (m : Mat) : Tensor3 :=
  { ch := 1, rows := m.rows, cols := m.cols, entry := fun _ i j => m.entry i j }

/-- Embeds `AudioDataset.__getitem__`: extract features for the item; if
extraction fails substitute `np.zeros((128, 128))`; add the channel
dimension; return the tensor with the original label. -/
def dataset_getitem (decoded : Option AudioEnv) (label : Nat) : Tensor3 × Nat :=
  let features :=
    match extract_mel_spectrogram_opt decoded with
    | none => np_zeros_128
    | some f => f
  (unsqueeze0 features, label)

end Detector

namespace Extractor

/-- Claim C1: for every audio input that decodes successfully,
`extract_mel_spectrogram` returns a matrix of shape exactly 128 x 128
(128 mel rows, 128 time frames) regardless of duration; a clip yielding
more than 128 frames is truncated on the right keeping the earliest
frames, and one yielding fewer is padded on the right with a constant
value (0). -/
theorem extract_always_128_by_128 (env : AudioEnv) :
    (extract_mel_spectrogram env).rows = 128 ∧
    (extract_mel_spectrogram env).cols = 128 ∧
    (∀ i j, j < (extractedRaw env).cols → j < 128 →
      (extract_mel_spectrogram env).entry i j = (extractedRaw env).entry i j) ∧
    (∀ i j, (extractedRaw env).cols ≤ j → j < 128 →
      (extract_mel_spectrogram env).entry i j = 0) := by
  refine ⟨extract_rows_eq env, extract_cols_eq env, ?_, ?_⟩
  · rcases lt_or_ge (extractedRaw env).cols 128 with h | h
    · intro i j hj _
      simp [extract_mel_spectrogram, padOrTruncate, h, hj]
    · intro i j _ _
      simp [extract_mel_spectrogram, padOrTruncate, Nat.not_lt.mpr h]
  · rcases lt_or_ge (extractedRaw env).cols 128 with h | h
    · intro i j hj _
      simp [extract_mel_spectrogram, padOrTruncate, h, Nat.not_lt.mpr hj]
    · intro i j hj hj128
      exact absurd (lt_of_le_of_lt hj hj128) (Nat.not_lt.mpr h)

/-- Witness for C1: a concrete short clip (1000 samples, hence 2 mel
frames, padded) and the evaluated conclusions. -/
def envShort : AudioEnv :=
  { n := 1000, melEnergy := fun _ _ => 7, dbOf := fun _ x => x }

theorem extract_always_128_by_128_witness :
    (extract_mel_spectrogram envShort).rows = 128 ∧
    (extract_mel_spectrogram envShort).cols = 128 ∧
    (extract_mel_spectrogram envShort).entry 0 1 = 7 ∧
    (extract_mel_spectrogram envShort).entry 0 5 = 0 := by
  have h := extract_always_128_by_128 envShort
  refine ⟨h.1, h.2.1, ?_, ?_⟩
  · have := h.2.2.1 0 1 (by decide) (by decide)
    simpa [extractedRaw, power_to_db, melspectrogram, envShort] using this
  · exact h.2.2.2 0 5 (by decide) (by decide)

end Extractor

namespace Detector

/-- Claim C9: for every index, `AudioDataset.__getitem__` returns a feature
tensor of shape [1, 128, 128] paired with the original label; if feature
extraction fails for the item it silently substitutes an all-zero 128 x 128
matrix, still carrying the original label. -/
theorem dataset_getitem_shape_and_fallback (decoded : Option Extractor.AudioEnv) (label : Nat) :
    (dataset_getitem decoded label).2 = label ∧
    (dataset_getitem decoded label).1.ch = 1 ∧
    (dataset_getitem decoded label).1.rows = 128 ∧
    (dataset_getitem decoded label).1.cols = 128 ∧
    (decoded = none → ∀ c i j, (dataset_getitem decoded label).1.entry c i j = 0) := by
  rcases decoded with _ | env
  · exact ⟨rfl, rfl, rfl, rfl, fun _ _ _ _ => rfl⟩
  · refine ⟨rfl, rfl, ?_, ?_, ?_⟩
    · simpa [dataset_getitem, Extractor.extract_mel_spectrogram_opt, unsqueeze0] using
        Extractor.extract_rows_eq env
    · simpa [dataset_getitem, Extractor.extract_mel_spectrogram_opt, unsqueeze0] using
        Extractor.extract_cols_eq env
    · intro hcontra
      cases hcontra

/-- Witness for C9: a failing extraction (decode error) yields the zero
tensor with the original label, and a successful one keeps its label. -/
theorem dataset_getitem_shape_and_fallback_witness :
    (dataset_getitem none 1).2 = 1 ∧
    (dataset_getitem none 1).1.rows = 128 ∧
    (dataset_getitem none 1).1.entry 0 3 4 = 0 ∧
    (dataset_getitem (some Extractor.envShort) 0).2 = 0 := by
  have h1 := dataset_getitem_shape_and_fallback none 1
  have h2 := dataset_getitem_shape_and_fallback (some Extractor.envShort) 0
  exact ⟨h1.1, h1.2.2.1, h1.2.2.2.2 rfl 0 3 4, h2.1⟩

end Detector

/-! ## Verdicts

A JSON-shaped classification result as the repository builds it. Optional
fields model dict keys that some code paths omit. -/

/-- The prediction strings produced across the repository. -/
inductive Prediction where
  | REAL
  | FAKE
  | UNKNOWN
  | ERROR
deriving DecidableEq

/-- The probabilities dict of a Verdict. -/
structure Probs where
  real : ℚ
  fake : ℚ
deriving DecidableEq

/-- A Verdict-shaped result dict. `probabilities` and `is_suspicious` are
optional because some error branches omit those keys; `hasError` records
whether an error key is present. -/
structure StreamResult where
  prediction : Prediction
  confidence : ℚ
  probabilities : Option Probs
  is_suspicious : Option Bool
  hasError : Bool
deriving DecidableEq

/-! ## Local inference path (app.py lines 104-126) -/

namespace App

/-- Models `torch.softmax` on the two raw logits, with the exponential
supplied as an abstract function (class index 0 = real, index 1 = fake). -/
def softmax2 (expf : ℚ → ℚ) (out0 out1 : ℚ) : ℚ × ℚ :=
  (expf out0 / (expf out0 + expf out1), expf out1 / (expf out0 + expf out1))

/-- Embeds the Verdict construction of `predict_audio_file` after a
successful feature extraction: softmax over the two logits, prediction
FAKE iff the fake probability exceeds 0.5, confidence the larger
probability, is_suspicious iff the fake probability exceeds 0.7. -/
def predict_audio_file (expf : ℚ → ℚ) (out0 out1 : ℚ) : StreamResult :=
  let real_prob := (softmax2 expf out0 out1).1
  let fake_prob := (softmax2 expf out0 out1).2
  { prediction := if fake_prob > 1/2 then Prediction.FAKE else Prediction.REAL
    confidence := max fake_prob real_prob
    probabilities := some { real := real_prob, fake := fake_prob }
    is_suspicious := some (decide (fake_prob > 7/10))
    hasError := false }

end App

/-! ## Remote textual result parsing

Shared between desktop-app/deepfake_monitor.py lines 413-441 and
mobile-app/hf_api_client.py lines 99-132, which duplicate the same two
regexes. -/

namespace RemoteParse

/-- Regex environment for one textual result: the percentage number
captured by re.search for the Real Voice pattern and for the AI Generated
pattern (if those patterns match), plus the two case-insensitive substring
tests the parsers perform on the raw text. -/
structure ParsedText where
  realPct : Option ℚ
  fakePct : Option ℚ
  likelyAiMarker : Bool
  aiMarker : Bool
deriving DecidableEq

/-- Line `real_prob = float(real_match.group(1)) / 100 if real_match else
0.5` of both parsers. -/
def parsedRealProb (p : ParsedText) : ℚ :=
  match p.realPct with
  | some v => v / 100
  | none => 1/2

/-- Line `fake_prob = float(fake_match.group(1)) / 100 if fake_match else
0.5` of both parsers. -/
def parsedFakeProb (p : ParsedText) : ℚ :=
  match p.fakePct with
  | some v => v / 100
  | none => 1/2

end RemoteParse

namespace Desktop

open RemoteParse

/-- Embeds `StreamingDeepfakeMonitor.parse_streaming_result` (desktop
monitor lines 413-441). `tryFails` marks the inputs on which the try body
raises (for example a non-string payload reaching re.search); the except
branch returns prediction UNKNOWN with confidence 0.5 and an error key,
omitting the probabilities and is_suspicious keys entirely. -/
def parse_streaming_result (p : ParsedText) (tryFails : Bool) : StreamResult :=
  if tryFails then
    { prediction := Prediction.UNKNOWN, confidence := 1/2,
      probabilities := none, is_suspicious := none, hasError := true }
  else
    let real_prob := parsedRealProb p
    let fake_prob := parsedFakeProb p
    { prediction := if fake_prob > real_prob ∨ p.likelyAiMarker = true
                    then Prediction.FAKE else Prediction.REAL
      confidence := max real_prob fake_prob
      probabilities := some { real := real_prob, fake := fake_prob }
      is_suspicious := some (decide (fake_prob > 3/10))
      hasError := false }

end Desktop

namespace Mobile

open RemoteParse

/-- A raw payload delivered to the mobile parser by the polling step:
either a string (carrying its regex match environment) or a non-string
JSON value (null, a number, a list or a dict), on which re.search raises
TypeError. -/
inductive RawPayload where
  | str (p : ParsedText)
  | nonStr
deriving DecidableEq

/-- The verdict built by the try body of
`HuggingFaceDeepfakeAPI.parse_result` (hf_api_client.py lines 101-120) on
a string payload. On a string the try body is total: re.search, float of
a digits-dot-digits capture and the substring test cannot raise. -/
def parse_result_verdict (p : ParsedText) : StreamResult :=
  let real_prob := parsedRealProb p
  let fake_prob := parsedFakeProb p
  { prediction := if fake_prob > real_prob ∨ p.aiMarker = true
                  then Prediction.FAKE else Prediction.REAL
    confidence := max real_prob fake_prob
    probabilities := some { real := real_prob, fake := fake_prob }
    is_suspicious := some (decide (fake_prob > 6/10))
    hasError := false }

/-- Embeds `HuggingFaceDeepfakeAPI.parse_result` (hf_api_client.py lines
99-132). On a string payload the try body completes and returns its
verdict. On a non-string payload the try body raises at re.search, and
the except handler then raises itself at its first statement,
`markdown_result.lower()` (line 124), so the exception propagates to the
caller; the heuristic 0.7-confidence, 0.3/0.7-split dict the handler
would build further down is unreachable for every realizable input. -/
def parse_result : RawPayload → Except Unit StreamResult
  | RawPayload.str p => Except.ok (parse_result_verdict p)
  | RawPayload.nonStr => Except.error ()

end Mobile

/-! ## Claim C4: the FAKE-iff-fake-over-half invariant -/

/-- A concrete parsed remote result in which the Real Voice pattern
captured 10.00 percent and the AI Generated pattern captured 40.00
percent (so the text contains the AI GENERATED substring but not the
LIKELY AI GENERATED one). -/
def pTenForty : RemoteParse.ParsedText :=
  { realPct := some 10, fakePct := some 40,
    likelyAiMarker := false, aiMarker := true }

/-- Counterexample to C4: on the remote-parse path the Verdict for
`pTenForty` has prediction FAKE while probabilities.fake = 0.4, which is
not greater than 0.5, so prediction equals FAKE is not equivalent to
probabilities.fake exceeding 0.5. -/
theorem parse_fake_without_majority :
    (Desktop.parse_streaming_result pTenForty false).prediction = Prediction.FAKE ∧
    ¬ ((Desktop.parse_streaming_result pTenForty false).probabilities.getD
        { real := 0, fake := 0 }).fake > 1/2 := by
  constructor
  · norm_num [Desktop.parse_streaming_result, pTenForty,
      RemoteParse.parsedRealProb, RemoteParse.parsedFakeProb]
  · norm_num [Desktop.parse_streaming_result, pTenForty,
      RemoteParse.parsedRealProb, RemoteParse.parsedFakeProb]

/-- Amended C4: Verdicts built locally from softmax output satisfy
prediction = FAKE iff probabilities.fake exceeds 0.5; Verdicts built by
parsing a remote textual result instead satisfy prediction = FAKE iff the
parsed fake probability exceeds the parsed real probability or the text
contains the LIKELY AI GENERATED marker. -/
theorem prediction_rule_local_and_parsed :
    (∀ expf out0 out1,
      ((App.predict_audio_file expf out0 out1).prediction = Prediction.FAKE ↔
        ((App.predict_audio_file expf out0 out1).probabilities.getD
          { real := 0, fake := 0 }).fake > 1/2)) ∧
    (∀ p : RemoteParse.ParsedText,
      ((Desktop.parse_streaming_result p false).prediction = Prediction.FAKE ↔
        (RemoteParse.parsedFakeProb p > RemoteParse.parsedRealProb p ∨
          p.likelyAiMarker = true))) := by
  constructor
  · intro expf out0 out1
    by_cases h : (App.softmax2 expf out0 out1).2 > 1/2
    · simp [App.predict_audio_file, h]
    · simp [App.predict_audio_file, h]
  · intro p
    by_cases h : RemoteParse.parsedFakeProb p > RemoteParse.parsedRealProb p
    · simp [Desktop.parse_streaming_result, h]
    · by_cases hm : p.likelyAiMarker
      · simp [Desktop.parse_streaming_result, h, hm]
      · simp [Desktop.parse_streaming_result, h, hm]

/-- Witness for amended C4 at concrete inputs: a local verdict from logits
with a constant exponential surrogate, and the parsed verdict for
`pTenForty`. -/
theorem prediction_rule_local_and_parsed_witness :
    ((App.predict_audio_file (fun _ => 1) 2 (-2)).prediction = Prediction.FAKE ↔
      ((App.predict_audio_file (fun _ => 1) 2 (-2)).probabilities.getD
        { real := 0, fake := 0 }).fake > 1/2) ∧
    ((Desktop.parse_streaming_result pTenForty false).prediction = Prediction.FAKE ↔
      (RemoteParse.parsedFakeProb pTenForty > RemoteParse.parsedRealProb pTenForty ∨
        pTenForty.likelyAiMarker = true)) :=
  ⟨prediction_rule_local_and_parsed.1 (fun _ => 1) 2 (-2),
   prediction_rule_local_and_parsed.2 pTenForty⟩

/-! ## Claim C5: probabilities lie in [0,1] and sum to 1 -/

/-- A concrete parsed remote result in which the Real Voice pattern
captured 30.00 percent and the AI Generated pattern captured 150.00
percent (the digit-matching capture accepts any decimal number). -/
def pOverScale : RemoteParse.ParsedText :=
  { realPct := some 30, fakePct := some 150,
    likelyAiMarker := false, aiMarker := true }

/-- Counterexample to C5: the parsed Verdict for `pOverScale` has
probabilities.fake = 1.5, outside [0,1], and the probabilities sum to 1.8,
which is farther than 1e-5 from 1. -/
theorem parse_probabilities_not_distribution :
    ((Desktop.parse_streaming_result pOverScale false).probabilities.getD
      { real := 0, fake := 0 }).fake > 1 ∧
    ¬ |(((Desktop.parse_streaming_result pOverScale false).probabilities.getD
          { real := 0, fake := 0 }).real +
        ((Desktop.parse_streaming_result pOverScale false).probabilities.getD
          { real := 0, fake := 0 }).fake) - 1| ≤ 1/100000 := by
  constructor
  · norm_num [Desktop.parse_streaming_result, pOverScale,
      RemoteParse.parsedRealProb, RemoteParse.parsedFakeProb]
  · norm_num [Desktop.parse_streaming_result, pOverScale,
      RemoteParse.parsedRealProb, RemoteParse.parsedFakeProb, abs_le]

/-- Amended C5: Verdicts built from local softmax output (any positive
exponential) have both probabilities in [0,1] with sum exactly 1. Verdicts
built by parsing a remote textual result carry exactly the matched
percentages divided by 100 (default 0.5 when a pattern is absent); these
are nonnegative whenever the captures are, and they lie in [0,1] with sum
1 precisely under the extra assumptions that both patterns matched with
captures at most 100 summing to 100. -/
theorem probability_invariant_amended :
    (∀ expf out0 out1, (∀ x, 0 < expf x) →
      0 ≤ ((App.predict_audio_file expf out0 out1).probabilities.getD
            { real := 0, fake := 0 }).real ∧
      ((App.predict_audio_file expf out0 out1).probabilities.getD
            { real := 0, fake := 0 }).real ≤ 1 ∧
      0 ≤ ((App.predict_audio_file expf out0 out1).probabilities.getD
            { real := 0, fake := 0 }).fake ∧
      ((App.predict_audio_file expf out0 out1).probabilities.getD
            { real := 0, fake := 0 }).fake ≤ 1 ∧
      ((App.predict_audio_file expf out0 out1).probabilities.getD
            { real := 0, fake := 0 }).real +
        ((App.predict_audio_file expf out0 out1).probabilities.getD
            { real := 0, fake := 0 }).fake = 1) ∧
    (∀ p : RemoteParse.ParsedText,
      (Desktop.parse_streaming_result p false).probabilities =
        some { real := RemoteParse.parsedRealProb p,
               fake := RemoteParse.parsedFakeProb p }) ∧
    (∀ p : RemoteParse.ParsedText,
      (∀ v, p.realPct = some v → 0 ≤ v) → (∀ v, p.fakePct = some v → 0 ≤ v) →
      0 ≤ RemoteParse.parsedRealProb p ∧ 0 ≤ RemoteParse.parsedFakeProb p) ∧
    (∀ p : RemoteParse.ParsedText, ∀ r f : ℚ,
      p.realPct = some r → p.fakePct = some f →
      0 ≤ r → r ≤ 100 → 0 ≤ f → f ≤ 100 → r + f = 100 →
      0 ≤ RemoteParse.parsedRealProb p ∧ RemoteParse.parsedRealProb p ≤ 1 ∧
      0 ≤ RemoteParse.parsedFakeProb p ∧ RemoteParse.parsedFakeProb p ≤ 1 ∧
      RemoteParse.parsedRealProb p + RemoteParse.parsedFakeProb p = 1) := by
  refine ⟨?_, ?_, ?_, ?_⟩
  · intro expf out0 out1 hpos
    have h0 : 0 < expf out0 := hpos out0
    have h1 : 0 < expf out1 := hpos out1
    have hs : 0 < expf out0 + expf out1 := by linarith
    have hr0 : 0 ≤ expf out0 / (expf out0 + expf out1) :=
      div_nonneg h0.le hs.le
    have hr1 : expf out0 / (expf out0 + expf out1) ≤ 1 := by
      rw [div_le_one hs]; linarith
    have hf0 : 0 ≤ expf out1 / (expf out0 + expf out1) :=
      div_nonneg h1.le hs.le
    have hf1 : expf out1 / (expf out0 + expf out1) ≤ 1 := by
      rw [div_le_one hs]; linarith
    have hsum : expf out0 / (expf out0 + expf out1) +
        expf out1 / (expf out0 + expf out1) = 1 := by
      rw [div_add_div_same, div_self hs.ne']
    simpa [App.predict_audio_file, App.softmax2] using
      ⟨hr0, hr1, hf0, hf1, hsum⟩
  · intro p
    simp [Desktop.parse_streaming_result]
  · intro p hr hf
    constructor
    · rcases hrv : p.realPct with _ | v
      · simp [RemoteParse.parsedRealProb, hrv]
      · have := hr v hrv
        simp only [RemoteParse.parsedRealProb, hrv]
        positivity
    · rcases hfv : p.fakePct with _ | v
      · simp [RemoteParse.parsedFakeProb, hfv]
      · have := hf v hfv
        simp only [RemoteParse.parsedFakeProb, hfv]
        positivity
  · intro p r f hrv hfv hr0 hr100 hf0 hf100 hsum
    simp only [RemoteParse.parsedRealProb, RemoteParse.parsedFakeProb, hrv, hfv]
    refine ⟨by positivity, by linarith, by positivity, by linarith, by
      field_simp
      linarith⟩

/-- Witness for amended C5: all four parts evaluated at concrete inputs:
the constant exponential surrogate, and a parsed result capturing 25.00
and 75.00 percent. -/
def pQuarters : RemoteParse.ParsedText :=
  { realPct := some 25, fakePct := some 75,
    likelyAiMarker := false, aiMarker := true }

theorem probability_invariant_amended_witness :
    (0 ≤ ((App.predict_audio_file (fun _ => 1) 2 (-2)).probabilities.getD
        { real := 0, fake := 0 }).real) ∧
    ((Desktop.parse_streaming_result pQuarters false).probabilities =
      some { real := RemoteParse.parsedRealProb pQuarters,
             fake := RemoteParse.parsedFakeProb pQuarters }) ∧
    (0 ≤ RemoteParse.parsedRealProb pQuarters ∧
      0 ≤ RemoteParse.parsedFakeProb pQuarters) ∧
    (RemoteParse.parsedRealProb pQuarters + RemoteParse.parsedFakeProb pQuarters = 1) := by
  have h := probability_invariant_amended
  refine ⟨(h.1 (fun _ => 1) 2 (-2) (fun _ => one_pos)).1, h.2.1 pQuarters, ?_, ?_⟩
  · exact h.2.2.1 pQuarters (by intro v hv; cases hv; norm_num)
      (by intro v hv; cases hv; norm_num)
  · exact (h.2.2.2 pQuarters 25 75 rfl rfl (by norm_num) (by norm_num)
      (by norm_num) (by norm_num) (by norm_num)).2.2.2.2

/-! ## Claim C8: behaviour when parsing the remote textual result fails -/

/-- A raw payload that contains neither percentage pattern but does contain
the AI GENERATED substring. -/
def pNoMatches : RemoteParse.ParsedText :=
  { realPct := none, fakePct := none,
    likelyAiMarker := false, aiMarker := true }

/-- Counterexample to C8: when an exception is raised during parsing, the
desktop parser returns prediction UNKNOWN with no probabilities key at all
(not the neutral 0.5/0.5 split), and the mobile parser does not return any
probability split: on a non-string payload (the only realizable way the
try body raises) its except handler raises itself at
`markdown_result.lower()`, so the exception propagates to the caller. -/
theorem parse_exception_not_neutral :
    (Desktop.parse_streaming_result pNoMatches true).probabilities = none ∧
    (Desktop.parse_streaming_result pNoMatches true).prediction = Prediction.UNKNOWN ∧
    Mobile.parse_result Mobile.RawPayload.nonStr = Except.error () :=
  ⟨rfl, rfl, rfl⟩

/-- Amended C8: on a string payload neither parser raises, and when the
expected percentage patterns are absent both degrade to the neutral split
real = fake = 0.5. When an exception is raised during parsing, the
desktop parser returns prediction UNKNOWN with confidence 0.5, an error
key and no probabilities, without raising; the mobile parser instead
propagates the exception to its caller, because its except handler
evaluates markdown_result.lower() on the same non-string payload that
made the try body raise. -/
theorem parse_failure_fallbacks :
    (∀ p : RemoteParse.ParsedText, p.realPct = none → p.fakePct = none →
      (Desktop.parse_streaming_result p false).probabilities =
        some { real := 1/2, fake := 1/2 } ∧
      (Mobile.parse_result_verdict p).probabilities =
        some { real := 1/2, fake := 1/2 }) ∧
    (∀ p : RemoteParse.ParsedText,
      Mobile.parse_result (Mobile.RawPayload.str p) =
        Except.ok (Mobile.parse_result_verdict p)) ∧
    (∀ p : RemoteParse.ParsedText,
      (Desktop.parse_streaming_result p true).prediction = Prediction.UNKNOWN ∧
      (Desktop.parse_streaming_result p true).confidence = 1/2 ∧
      (Desktop.parse_streaming_result p true).probabilities = none ∧
      (Desktop.parse_streaming_result p true).hasError = true) ∧
    Mobile.parse_result Mobile.RawPayload.nonStr = Except.error () := by
  refine ⟨?_, ?_, ?_, rfl⟩
  · intro p hr hf
    constructor
    · simp [Desktop.parse_streaming_result, RemoteParse.parsedRealProb,
        RemoteParse.parsedFakeProb, hr, hf]
    · simp [Mobile.parse_result_verdict, RemoteParse.parsedRealProb,
        RemoteParse.parsedFakeProb, hr, hf]
  · intro p
    rfl
  · intro p
    exact ⟨rfl, rfl, rfl, rfl⟩

/-- Witness for amended C8 at the concrete payload with no pattern
matches. -/
theorem parse_failure_fallbacks_witness :
    (Desktop.parse_streaming_result pNoMatches false).probabilities =
      some { real := 1/2, fake := 1/2 } ∧
    (Mobile.parse_result_verdict pNoMatches).probabilities =
      some { real := 1/2, fake := 1/2 } ∧
    Mobile.parse_result (Mobile.RawPayload.str pNoMatches) =
      Except.ok (Mobile.parse_result_verdict pNoMatches) ∧
    (Desktop.parse_streaming_result pNoMatches true).prediction = Prediction.UNKNOWN :=
  ⟨(parse_failure_fallbacks.1 pNoMatches rfl rfl).1,
   (parse_failure_fallbacks.1 pNoMatches rfl rfl).2,
   parse_failure_fallbacks.2.1 pNoMatches,
   (parse_failure_fallbacks.2.2.1 pNoMatches).1⟩

/-! ## Desktop streaming monitor state machine

Embeds the mutable detection state of
`desktop-app/deepfake_monitor.py`: the fields touched by
`handle_streaming_result` (lines 577-626), `should_show_alert`
(lines 628-630) and `stop_monitoring` (lines 864-890). Wall-clock reads
(time.time()) are passed in as an explicit `now` argument. -/

namespace Desktop

/-- The monitor fields relevant to buffering, event grouping, alert
cooldown and history. -/
structure MonitorState where
  is_monitoring : Bool
  streaming_buffer : List Nat
  buffer_duration : ℚ
  detection_history : List StreamResult
  last_alert_time : ℚ
  alert_cooldown : ℚ
  consecutive_detections : Nat
  in_detection_event : Bool
  detection_event_start : ℚ
  total_detections : Nat
deriving DecidableEq

/-- The state set up by `__init__` (desktop monitor lines 30-81):
empty buffer and history, last_alert_time = 0, alert_cooldown = 10.0
seconds, no detection event in progress. -/
def initState : MonitorState :=
  { is_monitoring := false
    streaming_buffer := []
    buffer_duration := 0
    detection_history := []
    last_alert_time := 0
    alert_cooldown := 10
    consecutive_detections := 0
    in_detection_event := false
    detection_event_start := 0
    total_detections := 0 }

/-- Embeds `should_show_alert` (lines 628-630): an alert is allowed only
when at least alert_cooldown seconds have passed since the last alert. -/
def should_show_alert (s : MonitorState) (now : ℚ) : Prop :=
  now - s.last_alert_time ≥ s.alert_cooldown

instance (s : MonitorState) (now : ℚ) : Decidable (should_show_alert s now) := by
  unfold should_show_alert
  infer_instance

/-- The bounded history push of `handle_streaming_result` lines 582-584:
append, then drop the oldest entry when the length exceeds 100. -/
def pushHistory (h : List StreamResult) (r : StreamResult) : List StreamResult :=
  let h2 := h ++ [r]
  if h2.length > 100 then h2.drop 1 else h2

/-- Embeds `handle_streaming_result` (lines 577-626). Returns the updated
state together with whether `trigger_streaming_alert` fired on this call.
The two time.time() reads of the body happen within the same tick and are
modelled by the single argument `now`. -/
def handle_streaming_result (s : MonitorState) (r : StreamResult) (now : ℚ) :
    MonitorState × Bool :=
  let s1 := { s with total_detections := s.total_detections + 1
                     detection_history := pushHistory s.detection_history r }
  if r.is_suspicious.getD false then
    if s1.in_detection_event = false then
      let s2 := { s1 with in_detection_event := true
                          detection_event_start := now
                          consecutive_detections := 1 }
      if should_show_alert s2 now then
        ({ s2 with last_alert_time := now }, true)
      else
        (s2, false)
    else
      ({ s1 with consecutive_detections := s1.consecutive_detections + 1 }, false)
  else
    if s1.in_detection_event then
      ({ s1 with in_detection_event := false
                 consecutive_detections := 0
                 detection_event_start := 0 }, false)
    else
      (s1, false)

/-- Runs `handle_streaming_result` over a sequence of (result, time)
ticks, counting how many alerts fire. -/
def runTicks (s : MonitorState) : List (StreamResult × ℚ) → MonitorState × Nat
  | [] => (s, 0)
  | (r, t) :: rest =>
    let step := handle_streaming_result s r t
    let tail := runTicks step.1 rest
    (tail.1, (if step.2 then 1 else 0) + tail.2)

/-- Embeds `stop_monitoring` (lines 864-890): when monitoring, clear the
buffer and its duration, and reset the detection-event fields. No other
field is written; in particular `last_alert_time` is left as it was. -/
def stop_monitoring (s : MonitorState) : MonitorState :=
  if s.is_monitoring then
    { s with is_monitoring := false
             streaming_buffer := []
             buffer_duration := 0
             in_detection_event := false
             consecutive_detections := 0
             detection_event_start := 0 }
  else
    s

end Desktop

namespace Desktop

/-- Helper: while already inside a detection event, a run of suspicious
ticks fires no alert and stays inside the event, whatever the tick
times. -/
theorem runTicks_in_event_no_alert (l : List (StreamResult × ℚ)) :
    ∀ s : MonitorState, s.in_detection_event = true →
      (∀ p ∈ l, (p : StreamResult × ℚ).1.is_suspicious = some true) →
      (runTicks s l).2 = 0 ∧ (runTicks s l).1.in_detection_event = true := by
  induction l with
  | nil =>
    intro s hs _
    exact ⟨rfl, hs⟩
  | cons hd tl ih =>
    intro s hs hl
    have hhd : hd.1.is_suspicious = some true := hl hd (List.mem_cons_self hd tl)
    have hstep : handle_streaming_result s hd.1 hd.2 =
        ({ s with total_detections := s.total_detections + 1
                  detection_history := pushHistory s.detection_history hd.1
                  consecutive_detections := s.consecutive_detections + 1 }, false) := by
      simp [handle_streaming_result, hhd, hs]
    have htl := ih { s with total_detections := s.total_detections + 1
                            detection_history := pushHistory s.detection_history hd.1
                            consecutive_detections := s.consecutive_detections + 1 }
      (by simp [hs]) (fun p hp => hl p (List.mem_cons_of_mem hd hp))
    rcases hd with ⟨r, t⟩
    simp only [runTicks, hstep]
    simpa using htl

/-- Claim C2: a run of consecutive suspicious verdicts is one detection
event. The first suspicious verdict while not in an event transitions to
the in-event state and fires exactly one alert iff the cooldown has
elapsed; every further suspicious verdict during the event fires no
alert; hence 10 consecutive suspicious ticks from the freshly initialized
monitor produce exactly 1 alert. -/
theorem event_grouping_single_alert :
    (∀ s : MonitorState, ∀ r : StreamResult, ∀ now : ℚ,
      s.in_detection_event = false → r.is_suspicious = some true →
      (handle_streaming_result s r now).1.in_detection_event = true ∧
      ((handle_streaming_result s r now).2 = true ↔
        now - s.last_alert_time ≥ s.alert_cooldown)) ∧
    (∀ s : MonitorState, ∀ r : StreamResult, ∀ now : ℚ,
      s.in_detection_event = true → r.is_suspicious = some true →
      (handle_streaming_result s r now).2 = false) ∧
    (∀ r0 : StreamResult, ∀ t0 : ℚ, ∀ rest : List (StreamResult × ℚ),
      r0.is_suspicious = some true →
      (∀ p ∈ rest, (p : StreamResult × ℚ).1.is_suspicious = some true) →
      rest.length = 9 → t0 ≥ 10 →
      (runTicks initState ((r0, t0) :: rest)).2 = 1) := by
  refine ⟨?_, ?_, ?_⟩
  · intro s r now hs hr
    constructor
    · by_cases hc : should_show_alert
        { s with total_detections := s.total_detections + 1
                 detection_history := pushHistory s.detection_history r
                 in_detection_event := true
                 detection_event_start := now
                 consecutive_detections := 1 } now
      · simp [handle_streaming_result, hr, hs, hc]
      · simp [handle_streaming_result, hr, hs, hc]
    · constructor
      · intro hfired
        by_contra hcool
        have : (handle_streaming_result s r now).2 = false := by
          simp only [handle_streaming_result, hr, Option.getD_some, if_true, hs]
          have hc : ¬ should_show_alert
              { s with total_detections := s.total_detections + 1
                       detection_history := pushHistory s.detection_history r
                       in_detection_event := true
                       detection_event_start := now
                       consecutive_detections := 1 } now := by
            simpa [should_show_alert] using hcool
          simp [hc]
        rw [this] at hfired
        cases hfired
      · intro hcool
        have hc : should_show_alert
            { s with total_detections := s.total_detections + 1
                     detection_history := pushHistory s.detection_history r
                     in_detection_event := true
                     detection_event_start := now
                     consecutive_detections := 1 } now := by
          simpa [should_show_alert] using hcool
        simp [handle_streaming_result, hr, hs, hc]
  · intro s r now hs hr
    simp [handle_streaming_result, hr, hs]
  · intro r0 t0 rest hr0 hrest hlen ht
    have ht2 : (10:ℚ) ≤ t0 := ht
    have hstep2 : (handle_streaming_result initState r0 t0).2 = true := by
      simp [handle_streaming_result, hr0, initState, should_show_alert, ht2]
    have hstep1 : (handle_streaming_result initState r0 t0).1.in_detection_event = true := by
      simp [handle_streaming_result, hr0, initState, should_show_alert, ht2]
    have htail := runTicks_in_event_no_alert rest
      (handle_streaming_result initState r0 t0).1 hstep1 hrest
    simp only [runTicks]
    rw [hstep2, htail.1]
    norm_num

/-- Witness for C2: a concrete suspicious result repeated at 10 concrete
tick times from the fresh monitor state fires exactly one alert. -/
def suspiciousTick : StreamResult :=
  { prediction := Prediction.FAKE
    confidence := 9/10
    probabilities := some { real := 1/10, fake := 9/10 }
    is_suspicious := some true
    hasError := false }

theorem event_grouping_single_alert_witness :
    (runTicks initState ((suspiciousTick, 100) ::
      [(suspiciousTick, 101), (suspiciousTick, 102), (suspiciousTick, 103),
       (suspiciousTick, 104), (suspiciousTick, 105), (suspiciousTick, 106),
       (suspiciousTick, 107), (suspiciousTick, 108), (suspiciousTick, 109)])).2 = 1 := by
  have h := event_grouping_single_alert.2.2 suspiciousTick 100
    [(suspiciousTick, 101), (suspiciousTick, 102), (suspiciousTick, 103),
     (suspiciousTick, 104), (suspiciousTick, 105), (suspiciousTick, 106),
     (suspiciousTick, 107), (suspiciousTick, 108), (suspiciousTick, 109)]
    rfl (by intro p hp; fin_cases hp <;> rfl) rfl (by norm_num)
  exact h

/-- Helper: effect of one suspicious tick taken while not inside an event:
the monitor enters the event, the cooldown setting is unchanged, the
last-alert timestamp advances to now exactly when the cooldown had
elapsed, and the alert fires exactly when the cooldown had elapsed. -/
theorem handle_not_in_event_susp (s : MonitorState) (r : StreamResult) (now : ℚ)
    (hs : s.in_detection_event = false) (hr : r.is_suspicious = some true) :
    (handle_streaming_result s r now).1.in_detection_event = true ∧
    (handle_streaming_result s r now).1.last_alert_time =
      (if now - s.last_alert_time ≥ s.alert_cooldown then now else s.last_alert_time) ∧
    (handle_streaming_result s r now).1.alert_cooldown = s.alert_cooldown ∧
    ((handle_streaming_result s r now).2 = true ↔
      now - s.last_alert_time ≥ s.alert_cooldown) := by
  by_cases hc : now - s.last_alert_time ≥ s.alert_cooldown
  · simp [handle_streaming_result, hr, hs, should_show_alert, hc]
  · simp [handle_streaming_result, hr, hs, should_show_alert, hc]

/-- Helper: effect of one non-suspicious tick: the monitor is not inside
an event afterwards, no alert fires, and the cooldown bookkeeping is
untouched. -/
theorem handle_clean_tick (s : MonitorState) (r : StreamResult) (now : ℚ)
    (hr : r.is_suspicious.getD false = false) :
    (handle_streaming_result s r now).1.in_detection_event = false ∧
    (handle_streaming_result s r now).1.last_alert_time = s.last_alert_time ∧
    (handle_streaming_result s r now).1.alert_cooldown = s.alert_cooldown ∧
    (handle_streaming_result s r now).2 = false := by
  by_cases hev : s.in_detection_event
  · simp [handle_streaming_result, hr, hev]
  · simp [handle_streaming_result, hr, hev]

/-- Claim C3: an alert fires only if the time since the single global
last-alert timestamp is at least the configured cooldown; two suspicious
events separated by less than the cooldown produce 1 alert, separated by
at least the cooldown produce 2 alerts. -/
theorem cooldown_gate :
    (∀ s : MonitorState, ∀ r : StreamResult, ∀ now : ℚ,
      (handle_streaming_result s r now).2 = true →
      now - s.last_alert_time ≥ s.alert_cooldown) ∧
    (∀ c t1 t2 t3 : ℚ, ∀ r1 rc r3 : StreamResult,
      r1.is_suspicious = some true → rc.is_suspicious.getD false = false →
      r3.is_suspicious = some true → t1 ≥ c →
      ((t3 - t1 < c →
        (runTicks { initState with alert_cooldown := c }
          [(r1, t1), (rc, t2), (r3, t3)]).2 = 1) ∧
       (t3 - t1 ≥ c →
        (runTicks { initState with alert_cooldown := c }
          [(r1, t1), (rc, t2), (r3, t3)]).2 = 2))) := by
  constructor
  · intro s r now hf
    by_cases hsusp : r.is_suspicious.getD false = true
    · by_cases hev : s.in_detection_event
      · exfalso
        have hfalse : (handle_streaming_result s r now).2 = false := by
          simp [handle_streaming_result, hsusp, hev]
        rw [hfalse] at hf
        cases hf
      · by_cases hc : now - s.last_alert_time ≥ s.alert_cooldown
        · exact hc
        · exfalso
          have hfalse : (handle_streaming_result s r now).2 = false := by
            simp [handle_streaming_result, hsusp, hev, should_show_alert, hc]
          rw [hfalse] at hf
          cases hf
    · exfalso
      have hbool : r.is_suspicious.getD false = false := by
        simpa using hsusp
      have hfalse := (handle_clean_tick s r now hbool).2.2.2
      rw [hfalse] at hf
      cases hf
  · intro c t1 t2 t3 r1 rc r3 hr1 hrc hr3 ht1
    have hs0e : ({ initState with alert_cooldown := c } : MonitorState).in_detection_event = false := rfl
    have hs0l : ({ initState with alert_cooldown := c } : MonitorState).last_alert_time = 0 := rfl
    have hs0c : ({ initState with alert_cooldown := c } : MonitorState).alert_cooldown = c := rfl
    have hc1 : t1 - ({ initState with alert_cooldown := c } : MonitorState).last_alert_time ≥
        ({ initState with alert_cooldown := c } : MonitorState).alert_cooldown := by
      rw [hs0l, hs0c]
      simpa using ht1
    have h1 := handle_not_in_event_susp { initState with alert_cooldown := c } r1 t1 hs0e hr1
    have h1f : (handle_streaming_result { initState with alert_cooldown := c } r1 t1).2 = true :=
      h1.2.2.2.mpr hc1
    have h1l : (handle_streaming_result { initState with alert_cooldown := c } r1 t1).1.last_alert_time = t1 := by
      rw [h1.2.1, if_pos hc1]
    have h2 := handle_clean_tick
      (handle_streaming_result { initState with alert_cooldown := c } r1 t1).1 rc t2 hrc
    have h3 := handle_not_in_event_susp
      (handle_streaming_result
        (handle_streaming_result { initState with alert_cooldown := c } r1 t1).1 rc t2).1
      r3 t3 h2.1 hr3
    have h2l : (handle_streaming_result
        (handle_streaming_result { initState with alert_cooldown := c } r1 t1).1 rc t2).1.last_alert_time = t1 := by
      rw [h2.2.1, h1l]
    have h2c : (handle_streaming_result
        (handle_streaming_result { initState with alert_cooldown := c } r1 t1).1 rc t2).1.alert_cooldown = c := by
      rw [h2.2.2.1, h1.2.2.1, hs0c]
    constructor
    · intro hlt
      have h3f : (handle_streaming_result
          (handle_streaming_result
            (handle_streaming_result { initState with alert_cooldown := c } r1 t1).1 rc t2).1
          r3 t3).2 = false := by
        rcases hb : (handle_streaming_result
            (handle_streaming_result
              (handle_streaming_result { initState with alert_cooldown := c } r1 t1).1 rc t2).1
            r3 t3).2 with _ | _
        · rfl
        · exfalso
          have := h3.2.2.2.mp hb
          rw [h2l, h2c] at this
          linarith
      simp only [runTicks, h1f, h2.2.2.2, h3f]
      norm_num
    · intro hge
      have h3f : (handle_streaming_result
          (handle_streaming_result
            (handle_streaming_result { initState with alert_cooldown := c } r1 t1).1 rc t2).1
          r3 t3).2 = true := by
        apply h3.2.2.2.mpr
        rw [h2l, h2c]
        exact hge
      simp only [runTicks, h1f, h2.2.2.2, h3f]
      norm_num

/-- Witness for C3: with cooldown 10, a suspicious tick at t = 100, a
clean tick at 101 and a second suspicious tick at 104 (gap 4 below the
cooldown) give exactly 1 alert; the same with the second event at 112
(gap 12 above the cooldown) gives 2 alerts. -/
def cleanTick : StreamResult :=
  { prediction := Prediction.REAL
    confidence := 8/10
    probabilities := some { real := 8/10, fake := 2/10 }
    is_suspicious := some false
    hasError := false }

theorem cooldown_gate_witness :
    (runTicks { initState with alert_cooldown := (10:ℚ) }
      [(suspiciousTick, 100), (cleanTick, 101), (suspiciousTick, 104)]).2 = 1 ∧
    (runTicks { initState with alert_cooldown := (10:ℚ) }
      [(suspiciousTick, 100), (cleanTick, 101), (suspiciousTick, 112)]).2 = 2 := by
  constructor
  · exact (cooldown_gate.2 10 100 101 104 suspiciousTick cleanTick suspiciousTick
      rfl rfl rfl (by norm_num)).1 (by norm_num)
  · exact (cooldown_gate.2 10 100 101 112 suspiciousTick cleanTick suspiciousTick
      rfl rfl rfl (by norm_num)).2 (by norm_num)

/-! ## Claim C7: state after stop_monitoring -/

/-- A reachable capturing state: monitoring, mid-event, with a past alert
at t = 500. -/
def sMidEvent : MonitorState :=
  { is_monitoring := true
    streaming_buffer := [4096, 4096]
    buffer_duration := 8192/22050
    detection_history := [suspiciousTick]
    last_alert_time := 500
    alert_cooldown := 10
    consecutive_detections := 3
    in_detection_event := true
    detection_event_start := 495
    total_detections := 7 }

/-- Counterexample to C7: stopping from the capturing state leaves the
last-alert timestamp (the cooldown timer) at its old value 500 instead of
clearing it. -/
theorem stop_monitoring_keeps_cooldown_timer :
    (stop_monitoring sMidEvent).last_alert_time = 500 ∧ (500 : ℚ) ≠ 0 := by
  constructor
  · rfl
  · norm_num

/-- Amended C7: after stop() from the capturing state the buffer is empty
with duration 0, monitoring is off, and the per-event state is reset
(IN_EVENT cleared, consecutive-detection counter and event-start time
zeroed) — but the last-alert timestamp is preserved, not cleared, so the
alert cooldown keeps counting from the previous alert across a
stop/start cycle. -/
theorem stop_monitoring_resets_event_state (s : MonitorState)
    (h : s.is_monitoring = true) :
    (stop_monitoring s).is_monitoring = false ∧
    (stop_monitoring s).streaming_buffer = [] ∧
    (stop_monitoring s).buffer_duration = 0 ∧
    (stop_monitoring s).in_detection_event = false ∧
    (stop_monitoring s).consecutive_detections = 0 ∧
    (stop_monitoring s).detection_event_start = 0 ∧
    (stop_monitoring s).last_alert_time = s.last_alert_time := by
  simp [stop_monitoring, h]

/-- Witness for amended C7 at the concrete capturing state. -/
theorem stop_monitoring_resets_event_state_witness :
    (stop_monitoring sMidEvent).is_monitoring = false ∧
    (stop_monitoring sMidEvent).streaming_buffer = [] ∧
    (stop_monitoring sMidEvent).buffer_duration = 0 ∧
    (stop_monitoring sMidEvent).in_detection_event = false ∧
    (stop_monitoring sMidEvent).consecutive_detections = 0 ∧
    (stop_monitoring sMidEvent).detection_event_start = 0 ∧
    (stop_monitoring sMidEvent).last_alert_time = sMidEvent.last_alert_time :=
  stop_monitoring_resets_event_state sMidEvent rfl

end Desktop

/-! ## Streaming buffer append and eviction

Embeds the buffer maintenance inside `audio_capture_thread`:
deepfake_monitor.py lines 288-301 (eviction limit hardcoded to 5.0
seconds, while line 39 configures BUFFER_DURATION = 4.0) and
desktop-app/deepfake_monitor.py lines 466-479 (eviction limit hardcoded
to 10.0 seconds, while line 39 configures BUFFER_DURATION = 8.0). The
buffer is the list of chunk sample counts, oldest first, alongside the
running buffer_duration accumulator. -/

namespace StreamBuffer

/-- Total duration represented by a list of chunks: the sum of
len(chunk) / RATE over the chunks. -/
def sumDur (rate : Nat) (l : List Nat) : ℚ :=
  (l.map (fun c => (c : ℚ) / (rate : ℚ))).sum

/-- The eviction loop `while buffer_duration > cap: pop(0)`: pops the
oldest chunk from the front and decrements the duration accumulator until
the duration no longer exceeds the cap. -/
def evictLoop (cap : ℚ) (rate : Nat) : List Nat → ℚ → List Nat × ℚ
  | [], d => ([], d)
  | c :: rest, d =>
    if d > cap then evictLoop cap rate rest (d - (c : ℚ) / (rate : ℚ))
    else (c :: rest, d)

/-- One append operation of the capture thread: push the new chunk on the
back, add its duration, then run the eviction loop. -/
def audio_capture_append (cap : ℚ) (rate : Nat) (buf : List Nat) (dur : ℚ)
    (chunk : Nat) : List Nat × ℚ :=
  evictLoop cap rate (buf ++ [chunk]) (dur + (chunk : ℚ) / (rate : ℚ))

/-- Helper: sumDur of a single cons. -/
theorem sumDur_cons (rate : Nat) (c : Nat) (l : List Nat) :
    sumDur rate (c :: l) = (c : ℚ) / (rate : ℚ) + sumDur rate l := by
  simp [sumDur]

/-- Helper: sumDur of a constant buffer. -/
theorem sumDur_replicate (rate : Nat) (n c : Nat) :
    sumDur rate (List.replicate n c) = (n : ℚ) * ((c : ℚ) / (rate : ℚ)) := by
  induction n with
  | zero => simp [sumDur]
  | succ k ih =>
    rw [List.replicate_succ, sumDur_cons, ih]
    push_cast
    ring

/-- Helper: sumDur distributes over append. -/
theorem sumDur_append (rate : Nat) (l1 l2 : List Nat) :
    sumDur rate (l1 ++ l2) = sumDur rate l1 + sumDur rate l2 := by
  simp [sumDur]

/-- Helper: the eviction loop preserves the representation invariant
(the accumulator equals the summed duration of the chunks). -/
theorem evictLoop_wf (cap : ℚ) (rate : Nat) :
    ∀ l : List Nat, ∀ d : ℚ, d = sumDur rate l →
      (evictLoop cap rate l d).2 = sumDur rate (evictLoop cap rate l d).1 := by
  intro l
  induction l with
  | nil =>
    intro d hd
    simpa [evictLoop] using hd
  | cons c rest ih =>
    intro d hd
    by_cases h : d > cap
    · have hrest : d - (c : ℚ) / (rate : ℚ) = sumDur rate rest := by
        rw [hd]
        simp [sumDur]
      simpa [evictLoop, h] using ih (d - (c : ℚ) / (rate : ℚ)) hrest
    · simpa [evictLoop, h] using hd

/-- Helper: starting from a well-formed state, the eviction loop brings
the duration to at most the cap (for a nonnegative cap). -/
theorem evictLoop_le (cap : ℚ) (rate : Nat) (hcap : 0 ≤ cap) :
    ∀ l : List Nat, ∀ d : ℚ, d = sumDur rate l →
      (evictLoop cap rate l d).2 ≤ cap := by
  intro l
  induction l with
  | nil =>
    intro d hd
    have : d = 0 := by simpa [sumDur] using hd
    simpa [evictLoop, this] using hcap
  | cons c rest ih =>
    intro d hd
    by_cases h : d > cap
    · have hrest : d - (c : ℚ) / (rate : ℚ) = sumDur rate rest := by
        rw [hd]
        simp [sumDur]
      simpa [evictLoop, h] using ih (d - (c : ℚ) / (rate : ℚ)) hrest
    · simpa [evictLoop, h] using le_of_not_lt h

/-- Helper: the eviction loop only removes chunks from the front, so the
surviving buffer is a tail of the original (FIFO, oldest evicted
first). -/
theorem evictLoop_drop (cap : ℚ) (rate : Nat) :
    ∀ l : List Nat, ∀ d : ℚ, ∃ k, (evictLoop cap rate l d).1 = l.drop k := by
  intro l
  induction l with
  | nil =>
    intro d
    exact ⟨0, rfl⟩
  | cons c rest ih =>
    intro d
    by_cases h : d > cap
    · obtain ⟨k, hk⟩ := ih (d - (c : ℚ) / (rate : ℚ))
      refine ⟨k + 1, ?_⟩
      simpa [evictLoop, h] using hk
    · exact ⟨0, by simp [evictLoop, h]⟩

end StreamBuffer

/-! ## Claim C6: the buffer cap invariant -/

namespace StreamBuffer

/-- The root monitor buffer after 43 captured chunks of 2048 samples:
43 * 2048 / 22050 is about 3.994 seconds, within the configured
BUFFER_DURATION of 4.0, and reachable because none of those appends
triggers the 5.0-second eviction. -/
def bufC6 : List Nat := List.replicate 43 2048

/-- Counterexample to C6: in the root monitor (RATE = 22050, CHUNK = 2048,
configured BUFFER_DURATION = 4.0, eviction loop hardcoded to 5.0), one
more append from the well-formed 43-chunk state leaves a total buffered
duration of 90112/22050, about 4.087 seconds, which exceeds the
configured 4.0-second cap because the eviction loop only enforces the
hardcoded 5.0. -/
theorem buffer_exceeds_configured_cap :
    sumDur 22050 bufC6 ≤ 4 ∧
    sumDur 22050 bufC6 = 88064/22050 ∧
    (audio_capture_append 5 22050 bufC6 (88064/22050) 2048).2 > 4 := by
  have hsum : sumDur 22050 bufC6 = 88064/22050 := by
    rw [bufC6, sumDur_replicate]
    norm_num
  have hlist : bufC6 ++ [2048] = 2048 :: (List.replicate 42 2048 ++ [2048]) := by
    simp [bufC6, List.replicate_succ]
  have happ : (audio_capture_append 5 22050 bufC6 (88064/22050) 2048).2 = 90112/22050 := by
    unfold audio_capture_append
    rw [hlist]
    simp only [evictLoop]
    rw [if_neg (by norm_num)]
    norm_num
  refine ⟨?_, hsum, ?_⟩
  · rw [hsum]
    norm_num
  · rw [happ]
    norm_num

/-- Amended C6: after any append operation from a well-formed state, the
total buffered duration never exceeds the hardcoded eviction limit of the
while-loop (5.0 s in the root monitor, 10.0 s in the desktop monitor) —
though that limit is larger than the configured BUFFER_DURATION field
(4.0 s and 8.0 s respectively), which the eviction never consults — and
eviction always removes the oldest chunk first: the surviving buffer is a
tail of the appended buffer. -/
theorem buffer_append_bounded (cap : ℚ) (rate : Nat) (buf : List Nat)
    (dur : ℚ) (chunk : Nat) (hcap : 0 ≤ cap) (hwf : dur = sumDur rate buf) :
    (audio_capture_append cap rate buf dur chunk).2 ≤ cap ∧
    (∃ k, (audio_capture_append cap rate buf dur chunk).1 = (buf ++ [chunk]).drop k) ∧
    (audio_capture_append cap rate buf dur chunk).2 =
      sumDur rate (audio_capture_append cap rate buf dur chunk).1 := by
  have hwf2 : dur + (chunk : ℚ) / (rate : ℚ) = sumDur rate (buf ++ [chunk]) := by
    rw [sumDur_append, hwf]
    simp [sumDur]
  refine ⟨?_, ?_, ?_⟩
  · exact evictLoop_le cap rate hcap (buf ++ [chunk]) _ hwf2
  · exact evictLoop_drop cap rate (buf ++ [chunk]) _
  · exact evictLoop_wf cap rate (buf ++ [chunk]) _ hwf2

/-- Witness for amended C6 with the desktop parameters (hardcoded limit
10.0 s, RATE 22050, CHUNK 4096) on a concrete one-chunk buffer. -/
theorem buffer_append_bounded_witness :
    (audio_capture_append 10 22050 [4096] (4096/22050) 4096).2 ≤ 10 ∧
    (∃ k, (audio_capture_append 10 22050 [4096] (4096/22050) 4096).1 =
      ([4096] ++ [4096]).drop k) ∧
    (audio_capture_append 10 22050 [4096] (4096/22050) 4096).2 =
      sumDur 22050 (audio_capture_append 10 22050 [4096] (4096/22050) 4096).1 :=
  buffer_append_bounded 10 22050 [4096] (4096/22050) 4096 (by norm_num)
    (by simp [sumDur])

end StreamBuffer

/-! ## Mobile HuggingFace client pipeline (hf_api_client.py lines 41-97) -/

namespace Mobile

/-- Network environment for one `detect_deepfake` call: whether the upload
request succeeds, whether the prediction request succeeds and yields an
event id, and what raw payload (a string with its regex match environment,
or a non-string JSON value) each polling attempt can extract, if any.
`Except.error` marks a step that raises. -/
structure ApiEnv where
  upload : Except Unit Unit
  predictCall : Except Unit Unit
  pollAttempt : Nat → Option RawPayload
deriving Inhabited

/-- Embeds `poll_results`: up to max_attempts polling rounds, returning
the first successfully extracted payload; when every attempt yields
nothing, the loop ends and a TimeoutError is raised. -/
def poll_results (att : Nat → Option RawPayload)
    (max_attempts : Nat) : Except Unit RawPayload :=
  match (List.range max_attempts).findSome? att with
  | some r => Except.ok r
  | none => Except.error ()

/-- The upload, predict (including the event id lookup) and poll steps of
the try body of `detect_deepfake`, with the default budget of 30
attempts. -/
def detect_pipeline (env : ApiEnv) : Except Unit RawPayload :=
  env.upload.bind fun _ => env.predictCall.bind fun _ =>
    poll_results env.pollAttempt 30

/-- The dict built by the except branch of `detect_deepfake`: an error
key, prediction ERROR, confidence 0.0 and the neutral 0.5/0.5 split. -/
def detectErrorResult : StreamResult :=
  { prediction := Prediction.ERROR
    confidence := 0
    probabilities := some { real := 1/2, fake := 1/2 }
    is_suspicious := none
    hasError := true }

/-- Embeds `detect_deepfake` (lines 75-97): run the pipeline and parse its
payload; any exception in upload, prediction submission or polling
(including budget exhaustion), and equally the exception the parser
propagates on a non-string payload, is caught by the surrounding
try/except and mapped to `detectErrorResult`. -/
def detect_deepfake (env : ApiEnv) : StreamResult :=
  match detect_pipeline env with
  | Except.ok payload =>
    match parse_result payload with
    | Except.ok v => v
    | Except.error _ => detectErrorResult
  | Except.error _ => detectErrorResult

/-- Claim C10: `detect_deepfake` never raises: it either returns the
parsed verdict of a successful pipeline run, or — whenever upload,
prediction submission or polling fails, in particular when every polling
attempt within the budget of 30 yields nothing, and also when the parser
raises on a non-string payload — returns the error result with prediction
ERROR, confidence 0.0 and neutral probabilities real = fake = 0.5. -/
theorem detect_deepfake_error_contract :
    detectErrorResult.hasError = true ∧
    detectErrorResult.prediction = Prediction.ERROR ∧
    detectErrorResult.confidence = 0 ∧
    detectErrorResult.probabilities = some { real := 1/2, fake := 1/2 } ∧
    (∀ env : ApiEnv,
      (∃ p, detect_pipeline env = Except.ok (RawPayload.str p) ∧
        detect_deepfake env = parse_result_verdict p) ∨
      detect_deepfake env = detectErrorResult) ∧
    (∀ env : ApiEnv, ∀ e : Unit, detect_pipeline env = Except.error e →
      detect_deepfake env = detectErrorResult) ∧
    (∀ env : ApiEnv, detect_pipeline env = Except.ok RawPayload.nonStr →
      detect_deepfake env = detectErrorResult) ∧
    (∀ env : ApiEnv, (∀ i, i < 30 → env.pollAttempt i = none) →
      env.upload = Except.ok () → env.predictCall = Except.ok () →
      detect_deepfake env = detectErrorResult) := by
  refine ⟨rfl, rfl, rfl, rfl, ?_, ?_, ?_, ?_⟩
  · intro env
    rcases hp : detect_pipeline env with e | payload
    · right
      simp [detect_deepfake, hp]
    · rcases payload with p | _
      · left
        exact ⟨p, rfl, by simp [detect_deepfake, hp, parse_result]⟩
      · right
        simp [detect_deepfake, hp, parse_result]
  · intro env e hp
    simp [detect_deepfake, hp]
  · intro env hp
    simp [detect_deepfake, hp, parse_result]
  · intro env hpoll hup hpred
    have hnone : (List.range 30).findSome? env.pollAttempt = none := by
      rw [List.findSome?_eq_none_iff]
      intro i hi
      exact hpoll i (List.mem_range.mp hi)
    have hp : detect_pipeline env = Except.error () := by
      simp [detect_pipeline, hup, hpred, poll_results, hnone, Except.bind]
    simp [detect_deepfake, hp]

/-- Witness for C10: a concrete environment whose upload and prediction
succeed but whose 30 polling attempts all yield nothing returns exactly
the error result. -/
def envTimeout : ApiEnv :=
  { upload := Except.ok ()
    predictCall := Except.ok ()
    pollAttempt := fun _ => none }

theorem detect_deepfake_error_contract_witness :
    detect_deepfake envTimeout = detectErrorResult ∧
    detectErrorResult.prediction = Prediction.ERROR :=
  ⟨detect_deepfake_error_contract.2.2.2.2.2.2.2 envTimeout
      (fun _ _ => rfl) rfl rfl,
   detect_deepfake_error_contract.2.1⟩

end Mobile
